import Mathlib

/-!
Verification of the OpenCEP CSV ingestion front-end (stream/CitiBikeDataFormatter.py,
stream/MultiFileCSVStream.py, stream/FileStream.py) through a shallow embedding in Lean.

The embedding translates each Python class into explicit state passing:
mutable fields become structure fields, `raise` becomes an `Except`/error value,
and the shared mutable formatter header is threaded through every operation.
Machine-level aspects that the code delegates to the Python runtime are modelled
at the same level of abstraction as the source uses them:
* `csv.reader` output for a file is a list of rows (each row a list of field
  strings); the stream re-joins a row with commas before yielding it, exactly
  like `','.join(row)` in the source (no CSV quoting, which the code does not
  handle either);
* `str.strip()` is modelled by dropping leading and trailing whitespace
  characters (ASCII whitespace);
* `glob.glob` + `sorted` is abstracted as the already-resolved sorted list of
  matching files handed to the multi-file stream constructor.
-/

/-- A value stored in a parsed record.  `float s` stands for the Python float
obtained from the (parseable) text `s`; representing the float by its source
text keeps the embedding exact without floating-point arithmetic. -/
inductive PyVal where
  | str (s : String)
  | float (s : String)
deriving DecidableEq, Repr

/-- A Python exception, as raised by the embedded code. -/
inductive PyExc where
  | stopIteration
  | typeError (msg : String)
  | exception (msg : String)
deriving DecidableEq, Repr

deriving instance DecidableEq for Except

/-- One parsed record: the ordered association list of (column, value) pairs
built by the `for i, header in enumerate(self._headers)` loop of
`CitiBikeDataFormatter.parse_event`. -/
abbrev Record := List (String × PyVal)

/-- The formatter's `_headers` field: `none` is Python `None`. -/
abbrev Headers := Option (List String)

/-- The 15 known Variant-B column names from
`CitiBikeDataFormatter.is_header_row`. -/
def expectedHeaders : List String :=
  ["tripduration", "starttime", "stoptime", "start station id",
   "start station name", "start station latitude", "start station longitude",
   "end station id", "end station name", "end station latitude",
   "end station longitude", "bikeid", "usertype", "birth year", "gender"]

/-- The columns whose values `parse_event` coerces with `float(value)`. -/
def numericHeaders : List String :=
  ["start station latitude", "start station longitude",
   "end station latitude", "end station longitude"]

/-- Python truthiness of the `_headers` field: `not self._headers` is true for
`None` and for an empty list. -/
def headersFalsy : Headers → Bool
  | none => true
  | some l => l.isEmpty

/-- `CitiBikeDataFormatter.set_headers`: unconditionally assigns
`self._headers = headers`, whatever the previous value was. -/
def set_headers (_old : Headers) (headers : List String) : Headers :=
  some headers

/-- `CitiBikeDataFormatter.is_header_row`: counts how many values appear among
the 15 expected Variant-B names and reports a header when at least 5 match. -/
def is_header_row (values : List String) : Bool :=
  5 ≤ values.countP (fun h => expectedHeaders.contains h)

/-- `str.strip()`: drop leading and trailing whitespace. -/
def pyStrip (s : String) : String :=
  String.mk (((s.data.dropWhile Char.isWhitespace).reverse.dropWhile
    Char.isWhitespace).reverse)

/-- `str.split(',')` on the character list: split at every comma, keeping
empty fields (so the empty string yields one empty field, as in Python). -/
def splitCommaChars : List Char → List Char → List String
  | [], acc => [String.mk acc.reverse]
  | c :: rest, acc =>
    if c = ',' then String.mk acc.reverse :: splitCommaChars rest []
    else splitCommaChars rest (c :: acc)

/-- `','.join(row)`: the line representation a stream yields for a CSV row. -/
def joinComma : List String → String
  | [] => ""
  | [s] => s
  | s :: rest => s ++ "," ++ joinComma rest

/-- Recognizer for strings accepted by Python `float()` (sign, digits with an
optional point and exponent, or inf/infinity/nan, after stripping whitespace;
PEP 515 underscores are not modelled, no claim depends on them). -/
def floatCharsOk (cs : List Char) : Bool :=
  let csl := cs.map Char.toLower
  if csl = ['i', 'n', 'f'] then true
  else if csl = ['i', 'n', 'f', 'i', 'n', 'i', 't', 'y'] then true
  else if csl = ['n', 'a', 'n'] then true
  else
    let intPart := cs.takeWhile Char.isDigit
    let r1 := cs.dropWhile Char.isDigit
    let expOk : List Char → Bool := fun r =>
      match r with
      | [] => true
      | e :: rest =>
        if e = 'e' || e = 'E' then
          let rest2 := match rest with
            | '+' :: t => t
            | '-' :: t => t
            | t => t
          !rest2.isEmpty && rest2.all Char.isDigit
        else false
    match r1 with
    | '.' :: r2 =>
      let fracPart := r2.takeWhile Char.isDigit
      let r3 := r2.dropWhile Char.isDigit
      (!intPart.isEmpty || !fracPart.isEmpty) && expOk r3
    | _ => !intPart.isEmpty && expOk r1

/-- Whether `float(s)` succeeds (no ValueError). -/
def pyFloatOk (s : String) : Bool :=
  let t := (pyStrip s).data
  let t1 := match t with
    | '+' :: r => r
    | '-' :: r => r
    | r => r
  floatCharsOk t1

/-- The body of the numeric-coercion branch of `parse_event`: latitude and
longitude columns are passed through `float(value)` with the raw text kept on
`ValueError`; every other column keeps the text. -/
def convertField (header value : String) : PyVal :=
  if numericHeaders.contains header then
    if pyFloatOk value then PyVal.float value else PyVal.str value
  else PyVal.str value

/-- `raw_data.strip()` followed by `.split(',')`. -/
def splitValues (raw : String) : List String :=
  splitCommaChars (pyStrip raw).data []

/-- `CitiBikeDataFormatter.parse_event`.  Returns the updated `_headers`
field together with the outcome: `.ok none` is Python `return None` (a
skipped header row), `.ok (some record)` a parsed payload, `.error e` a
raised exception. -/
def parse_event (hs : Headers) (raw : String) :
    Headers × Except PyExc (Option Record) :=
  let values := splitValues raw
  if headersFalsy hs then
    if is_header_row values then (some values, Except.ok none)
    else (hs, Except.error (PyExc.exception "Headers must be set before parsing events"))
  else
    let headers := hs.getD []
    if values = headers then (hs, Except.ok none)
    else if values.length ≠ headers.length then
      (hs, Except.error (PyExc.exception
        ("Data mismatch: expected " ++ toString headers.length ++
         " values but got " ++ toString values.length)))
    else
      (hs, Except.ok (some ((headers.zip values).map
        (fun p => (p.1, convertField p.1 p.2)))))

/-! ## Timestamp parsing (`get_event_timestamp`)

`datetime.strptime` is embedded for the two patterns the code uses,
`"%Y-%m-%d %H:%M:%S.%f"` and `"%Y-%m-%d %H:%M:%S"`, following the token
regexes of CPython `_strptime` (`%Y` four digits, `%m` `1[0-2]|0[1-9]|[1-9]`,
`%d` `3[01]|[12]\d|0[1-9]|[1-9]`, `%H` `2[0-3]|[0-1]\d|\d`, `%M` `[0-5]\d|\d`,
`%S` `6[0-1]|[0-5]\d|\d`, `%f` one to six digits, a literal whitespace run in
the format matching one or more whitespace characters, and the whole input
consumed).  The parsers use ordered alternatives without cross-token
backtracking, which coincides with the regex on every input the claims
mention.  `datetime(...)` validation (day within month, seconds below 60) is
applied after matching, as the constructor does. -/

/-- Digit value of a character. -/
def digitVal (c : Char) : Nat := c.toNat - '0'.toNat

/-- Match `%Y`: exactly four digits. -/
def matchY : List Char → Option (Nat × List Char)
  | a :: b :: c :: d :: rest =>
    if a.isDigit && b.isDigit && c.isDigit && d.isDigit then
      some (digitVal a * 1000 + digitVal b * 100 + digitVal c * 10 + digitVal d, rest)
    else none
  | _ => none

/-- Match a two-digit-or-one-digit field given the admissible leading
characters of the two-character alternatives, e.g. `%M` is `[0-5]\d|\d`.
`twoDigit lo hi cs` matches `[lo-hi]\d` and falls back to a single digit. -/
def twoDigit (lo hi : Char) : List Char → Option (Nat × List Char)
  | c1 :: c2 :: rest =>
    if lo ≤ c1 && c1 ≤ hi && c2.isDigit then some (digitVal c1 * 10 + digitVal c2, rest)
    else if c1.isDigit then some (digitVal c1, c2 :: rest)
    else none
  | [c1] => if c1.isDigit then some (digitVal c1, []) else none
  | [] => none

/-- Match `%m`: `1[0-2]|0[1-9]|[1-9]`. -/
def matchMonth : List Char → Option (Nat × List Char)
  | c1 :: c2 :: rest =>
    if c1 = '1' && '0' ≤ c2 && c2 ≤ '2' then some (10 + digitVal c2, rest)
    else if c1 = '0' && '1' ≤ c2 && c2 ≤ '9' then some (digitVal c2, rest)
    else if '1' ≤ c1 && c1 ≤ '9' then some (digitVal c1, c2 :: rest)
    else none
  | [c1] => if '1' ≤ c1 && c1 ≤ '9' then some (digitVal c1, []) else none
  | [] => none

/-- Match `%d`: `3[01]|[12]\d|0[1-9]|[1-9]`. -/
def matchDay : List Char → Option (Nat × List Char)
  | c1 :: c2 :: rest =>
    if c1 = '3' && ('0' ≤ c2 && c2 ≤ '1') then some (30 + digitVal c2, rest)
    else if ('1' ≤ c1 && c1 ≤ '2') && c2.isDigit then some (digitVal c1 * 10 + digitVal c2, rest)
    else if c1 = '0' && '1' ≤ c2 && c2 ≤ '9' then some (digitVal c2, rest)
    else if '1' ≤ c1 && c1 ≤ '9' then some (digitVal c1, c2 :: rest)
    else none
  | [c1] => if '1' ≤ c1 && c1 ≤ '9' then some (digitVal c1, []) else none
  | [] => none

/-- Match `%H`: `2[0-3]|[0-1]\d|\d`. -/
def matchHour : List Char → Option (Nat × List Char)
  | c1 :: c2 :: rest =>
    if c1 = '2' && ('0' ≤ c2 && c2 ≤ '3') then some (20 + digitVal c2, rest)
    else if ('0' ≤ c1 && c1 ≤ '1') && c2.isDigit then some (digitVal c1 * 10 + digitVal c2, rest)
    else if c1.isDigit then some (digitVal c1, c2 :: rest)
    else none
  | [c1] => if c1.isDigit then some (digitVal c1, []) else none
  | [] => none

/-- Match `%S`: `6[0-1]|[0-5]\d|\d`. -/
def matchSecond : List Char → Option (Nat × List Char)
  | c1 :: c2 :: rest =>
    if c1 = '6' && ('0' ≤ c2 && c2 ≤ '1') then some (60 + digitVal c2, rest)
    else if ('0' ≤ c1 && c1 ≤ '5') && c2.isDigit then some (digitVal c1 * 10 + digitVal c2, rest)
    else if c1.isDigit then some (digitVal c1, c2 :: rest)
    else none
  | [c1] => if c1.isDigit then some (digitVal c1, []) else none
  | [] => none

/-- Match `%f`: one to six digits, padded on the right to microseconds. -/
def matchFraction (cs : List Char) : Option (Nat × List Char) :=
  let digs := (cs.takeWhile Char.isDigit).take 6
  let rest := cs.drop digs.length
  if digs.isEmpty then none
  else some (digs.foldl (fun n c => n * 10 + digitVal c) 0 * 10 ^ (6 - digs.length), rest)

/-- Match a literal character of the format. -/
def matchLit (c : Char) : List Char → Option (List Char)
  | x :: rest => if x = c then some rest else none
  | [] => none

/-- Match a literal whitespace of the format: one or more whitespace
characters in the input. -/
def matchSpace : List Char → Option (List Char)
  | x :: rest => if x.isWhitespace then some (rest.dropWhile Char.isWhitespace) else none
  | [] => none

/-- A parsed naive datetime with microseconds. -/
structure PyDateTime where
  year : Nat
  month : Nat
  day : Nat
  hour : Nat
  minute : Nat
  second : Nat
  micro : Nat
deriving DecidableEq, Repr

/-- Whether a Gregorian year is a leap year. -/
def isLeapYear (y : Nat) : Bool :=
  (y % 4 = 0 && y % 100 ≠ 0) || y % 400 = 0

/-- Days in a month of the Gregorian calendar. -/
def daysInMonth (y m : Nat) : Nat :=
  if m = 2 then (if isLeapYear y then 29 else 28)
  else if m = 4 || m = 6 || m = 9 || m = 11 then 30
  else 31

/-- The `datetime(...)` constructor validation applied by `strptime` after
the regex match: the day must exist in the month and the second must be
below 60 (the regex alone admits 60 and 61). -/
def datetimeValid (dt : PyDateTime) : Bool :=
  1 ≤ dt.day && dt.day ≤ daysInMonth dt.year dt.month && dt.second ≤ 59

/-- Shared date-and-time prefix `%Y-%m-%d %H:%M:%S` of both patterns. -/
def matchDateTimePrefix (cs : List Char) : Option (PyDateTime × List Char) :=
  match matchY cs with
  | none => none
  | some (y, r1) =>
    match matchLit '-' r1 with
    | none => none
    | some r2 =>
      match matchMonth r2 with
      | none => none
      | some (mo, r3) =>
        match matchLit '-' r3 with
        | none => none
        | some r4 =>
          match matchDay r4 with
          | none => none
          | some (d, r5) =>
            match matchSpace r5 with
            | none => none
            | some r6 =>
              match matchHour r6 with
              | none => none
              | some (h, r7) =>
                match matchLit ':' r7 with
                | none => none
                | some r8 =>
                  match twoDigit '0' '5' r8 with
                  | none => none
                  | some (mi, r9) =>
                    match matchLit ':' r9 with
                    | none => none
                    | some r10 =>
                      match matchSecond r10 with
                      | none => none
                      | some (s, r11) =>
                        some (⟨y, mo, d, h, mi, s, 0⟩, r11)

/-- `datetime.strptime(s, "%Y-%m-%d %H:%M:%S.%f")`: `none` is a raised
`ValueError`. -/
def strptimeFrac (s : String) : Option PyDateTime :=
  match matchDateTimePrefix s.data with
  | none => none
  | some (dt, r) =>
    match matchLit '.' r with
    | none => none
    | some r1 =>
      match matchFraction r1 with
      | none => none
      | some (f, r2) =>
        if r2.isEmpty && datetimeValid dt then some { dt with micro := f } else none

/-- `datetime.strptime(s, "%Y-%m-%d %H:%M:%S")`: `none` is a raised
`ValueError`. -/
def strptimeNoFrac (s : String) : Option PyDateTime :=
  match matchDateTimePrefix s.data with
  | none => none
  | some (dt, r) =>
    if r.isEmpty && datetimeValid dt then some dt else none

/-- Days between 1970-01-01 and the given Gregorian date (Julian day number
formula; all intermediate divisions are on nonnegative numbers). -/
def daysSinceEpoch (y m d : Nat) : Int :=
  let a := (14 - m) / 12
  let y2 := y + 4800 - a
  let m2 := m + 12 * a - 3
  let jdn := d + (153 * m2 + 2) / 5 + 365 * y2 + y2 / 4 - y2 / 100 + y2 / 400 - 32045
  (jdn : Int) - 2440588

/-- `int(dt.timestamp() * 1000)` for a naive datetime.  `timestamp()`
interprets the naive datetime in the local timezone; the environment's UTC
offset in seconds is the `tzOffsetSec` parameter, so `tzOffsetSec = 0` is the
UTC convention the specification states.  The microsecond part enters the
millisecond result by truncation. -/
def datetimeTimestampMs (tzOffsetSec : Int) (dt : PyDateTime) : Int :=
  (daysSinceEpoch dt.year dt.month dt.day * 86400 +
    (dt.hour * 3600 + dt.minute * 60 + dt.second : Nat) - tzOffsetSec) * 1000 +
    (dt.micro / 1000 : Nat)

/-- Python truthiness of a record value (`not timestamp_str`): the empty
string and the float zero are falsy. -/
def pyFalsy : PyVal → Bool
  | PyVal.str s => s = ""
  | PyVal.float s =>
    let t := (pyStrip s).data
    let t1 := match t with
      | '+' :: r => r
      | '-' :: r => r
      | r => r
    let csl := t1.map Char.toLower
    if csl = ['i', 'n', 'f'] || csl = ['i', 'n', 'f', 'i', 'n', 'i', 't', 'y'] ||
       csl = ['n', 'a', 'n'] then false
    else (t1.filter Char.isDigit).all (fun c => c = '0')

/-- `dict.get(key)` on the record: Python keeps the last pair for a
duplicated key. -/
def recordGet (payload : Record) (key : String) : Option PyVal :=
  ((payload.filter (fun p => p.1 = key)).getLast?).map (fun p => p.2)

/-- `CitiBikeDataFormatter.get_event_timestamp`.  The missing/falsy check
comes first; then the fractional pattern, then the pattern without fraction;
both failing raises the invalid-format exception.  Calling `strptime` on a
non-string (a coerced float) would raise a `TypeError` in Python and is
embedded as such; no record built by `parse_event` stores a float under
`"starttime"`. -/
def get_event_timestamp (tzOffsetSec : Int) (payload : Record) : Except PyExc Int :=
  match recordGet payload "starttime" with
  | none => Except.error (PyExc.exception "No starttime timestamp found in event")
  | some v =>
    if pyFalsy v then Except.error (PyExc.exception "No starttime timestamp found in event")
    else
      match v with
      | PyVal.float _ => Except.error (PyExc.typeError "strptime argument 1 must be str")
      | PyVal.str s =>
        match strptimeFrac s with
        | some dt => Except.ok (datetimeTimestampMs tzOffsetSec dt)
        | none =>
          match strptimeNoFrac s with
          | some dt => Except.ok (datetimeTimestampMs tzOffsetSec dt)
          | none => Except.error (PyExc.exception ("Invalid timestamp format: " ++ s))

/-! ## The per-file stream (`CSVFileInputStream`)

A file is represented by the list of rows `csv.reader` produces for it (each
row a list of field strings).  The stream's mutable fields become structure
fields; the shared formatter (`_data_formatter._headers`) is threaded through
every operation as a `Headers` value.  `_file` is tracked by `fileOpen`
(`None` versus an open handle) and `_csv_reader` by `csvReader` (`none` is
Python `None`, `some remaining` an iterator with `remaining` rows left). -/

/-- The rows of one CSV file, as produced by `csv.reader`. -/
abbrev FileRows := List (List String)

/-- The state of a `CSVFileInputStream`. -/
structure CSVFileInputStream where
  content : FileRows
  hasFormatter : Bool
  hasHeader : Bool
  fileOpen : Bool
  csvReader : Option FileRows
  isInitialized : Bool
deriving DecidableEq, Repr

/-- `CSVFileInputStream.__init__`. -/
def mkCSVFileInputStream (content : FileRows) (hasFormatter hasHeader : Bool) :
    CSVFileInputStream :=
  { content := content, hasFormatter := hasFormatter, hasHeader := hasHeader,
    fileOpen := false, csvReader := none, isInitialized := false }

/-- `CSVFileInputStream._initialize`: on first use open the file and create
the reader; when a header is expected, consume the first row with
`next(self._csv_reader)` (raising `StopIteration` on an empty file, in which
case `_is_initialized` is never set) and hand it to
`self._data_formatter.set_headers` when a formatter is attached. -/
def csvLazyInit (s : CSVFileInputStream) (hs : Headers) :
    CSVFileInputStream × Headers × Option PyExc :=
  if s.isInitialized then (s, hs, none)
  else
    let s1 := { s with fileOpen := true, csvReader := some s.content }
    if s.hasHeader then
      match s.content with
      | [] => (s1, hs, some PyExc.stopIteration)
      | headerRow :: rest =>
        let hs1 := if s.hasFormatter then set_headers hs headerRow else hs
        ({ s1 with csvReader := some rest, isInitialized := true }, hs1, none)
    else ({ s1 with isInitialized := true }, hs, none)

/-- `CSVFileInputStream._cleanup`: close and null the file handle and the
reader when the handle is present; idempotent. -/
def csvCleanup (s : CSVFileInputStream) : CSVFileInputStream :=
  if s.fileOpen then { s with fileOpen := false, csvReader := none } else s

/-- `CSVFileInputStream.close` (the base-class `close` only marks the
internal queue, which this stream never uses). -/
def csvClose (s : CSVFileInputStream) : CSVFileInputStream :=
  csvCleanup s

/-- `CSVFileInputStream.__next__`: initialize lazily, then take one row from
the reader and yield `','.join(row)`; on `StopIteration` clean up and
re-raise.  After cleanup the reader is `None` while `_is_initialized` is
still `True`, so a further call reaches `next(None)` and raises a
`TypeError`. -/
def csvNext (s : CSVFileInputStream) (hs : Headers) :
    CSVFileInputStream × Headers × Except PyExc String :=
  let step := csvLazyInit s hs
  match step.2.2 with
  | some e => (step.1, step.2.1, Except.error e)
  | none =>
    let s1 := step.1
    let hs1 := step.2.1
    match s1.csvReader with
    | none => (s1, hs1, Except.error (PyExc.typeError "NoneType object is not an iterator"))
    | some [] => (csvCleanup s1, hs1, Except.error PyExc.stopIteration)
    | some (row :: rest) =>
      ({ s1 with csvReader := some rest }, hs1, Except.ok (joinComma row))

/-! ## The multi-file stream (`MultiFileCSVStream`)

`sorted(glob.glob(os.path.join(directory_path, pattern)))` is abstracted as
the already-resolved sorted list of matching files (their `csv.reader`
contents), handed to the constructor; the constructor's empty check and
error message are kept (the quotation marks around the pattern in the
Python message are dropped).  The `while True` loop of `__next__` is
embedded with a fuel parameter; one unit of fuel per loop iteration, and
every iteration beyond the first follows a successful `_open_next_file`,
which increments `_current_file_index`, so `len(files) + 2` fuel always
covers the loop. -/

/-- The state of a `MultiFileCSVStream`. -/
structure MultiFileCSVStream where
  directoryPath : String
  pattern : String
  files : List FileRows
  hasFormatter : Bool
  hasHeader : Bool
  currentFileIndex : Nat
  currentStream : Option CSVFileInputStream
  headersRead : Bool
deriving DecidableEq, Repr

/-- `MultiFileCSVStream.__init__`: fail fast when the glob result is
empty. -/
def mkMultiFileCSVStream (directoryPath pattern : String) (files : List FileRows)
    (hasFormatter hasHeader : Bool) : Except PyExc MultiFileCSVStream :=
  if files.isEmpty then
    Except.error (PyExc.exception
      ("No files matching pattern " ++ pattern ++ " found in " ++ directoryPath))
  else
    Except.ok { directoryPath := directoryPath, pattern := pattern, files := files,
                hasFormatter := hasFormatter, hasHeader := hasHeader,
                currentFileIndex := 0, currentStream := none, headersRead := false }

/-- `MultiFileCSVStream._open_next_file`: close the current stream if any and
open the next file; the first file keeps header capture enabled, later files
have it disabled once `_headers_read` is set. -/
def openNextFile (m : MultiFileCSVStream) : MultiFileCSVStream × Bool :=
  if m.files.length ≤ m.currentFileIndex then (m, false)
  else
    let file := m.files.getD m.currentFileIndex []
    let s := mkCSVFileInputStream file m.hasFormatter
      (m.hasHeader && !(m.hasHeader && m.headersRead))
    ({ m with currentStream := some s, headersRead := true,
              currentFileIndex := m.currentFileIndex + 1 }, true)

/-- The `while True` loop of `MultiFileCSVStream.__next__`, one fuel unit per
iteration.  Each recursive call follows a successful `_open_next_file`, so
any fuel above `len(files) + 1` is never exhausted; the fuel-out value is
arbitrary and unreachable from the wrapper `multiFileNext`. -/
def multiFileNextAux : Nat → MultiFileCSVStream → Headers →
    MultiFileCSVStream × Headers × Except PyExc String
  | 0, m, hs => (m, hs, Except.error PyExc.stopIteration)
  | fuel + 1, m, hs =>
    match m.currentStream with
    | none =>
      match openNextFile m with
      | (m1, false) => (m1, hs, Except.error PyExc.stopIteration)
      | (m1, true) => multiFileNextAux fuel m1 hs
    | some s =>
      match csvNext s hs with
      | (s1, hs1, Except.ok v) =>
        ({ m with currentStream := some s1 }, hs1, Except.ok v)
      | (s1, hs1, Except.error PyExc.stopIteration) =>
        match openNextFile { m with currentStream := some s1 } with
        | (m2, false) => (m2, hs1, Except.error PyExc.stopIteration)
        | (m2, true) => multiFileNextAux fuel m2 hs1
      | (s1, hs1, Except.error e) =>
        ({ m with currentStream := some s1 }, hs1, Except.error e)

/-- `MultiFileCSVStream.__next__`. -/
def multiFileNext (m : MultiFileCSVStream) (hs : Headers) :
    MultiFileCSVStream × Headers × Except PyExc String :=
  multiFileNextAux (m.files.length + 2) m hs

/-- Iterating a `MultiFileCSVStream` to exhaustion: collect every yielded
line until a call raises, and report the exception that ended the
iteration.  One fuel unit per `__next__` call. -/
def multiFileRunAux : Nat → MultiFileCSVStream → Headers →
    List String × MultiFileCSVStream × Headers × PyExc
  | 0, m, hs => ([], m, hs, PyExc.stopIteration)
  | fuel + 1, m, hs =>
    match multiFileNext m hs with
    | (m1, hs1, Except.ok v) =>
      let rest := multiFileRunAux fuel m1 hs1
      (v :: rest.1, rest.2)
    | (m1, hs1, Except.error e) => ([], m1, hs1, e)

/-- The consumer loop of the pipeline (as in the repository's test driver):
pull each line from the multi-file stream, hand it to
`CitiBikeDataFormatter.parse_event` on the same shared formatter, and keep
the lines parsed to a record; a line whose parse returns `None` is a
suppressed header.  The run stops at the exception that ends the iteration
(or at the first parse error). -/
def pipelineRunAux : Nat → MultiFileCSVStream → Headers → List String × Headers × PyExc
  | 0, _, hs => ([], hs, PyExc.stopIteration)
  | fuel + 1, m, hs =>
    match multiFileNext m hs with
    | (m1, hs1, Except.ok line) =>
      match parse_event hs1 line with
      | (hs2, Except.ok none) => pipelineRunAux fuel m1 hs2
      | (hs2, Except.ok (some _)) =>
        let rest := pipelineRunAux fuel m1 hs2
        (line :: rest.1, rest.2)
      | (hs2, Except.error e) => ([], hs2, e)
    | (_, hs1, Except.error e) => ([], hs1, e)

/-- Fuel that always exhausts a multi-file stream: every yielded line
consumes a row of some file or is bounded by the file count. -/
def multiFileFuel (m : MultiFileCSVStream) : Nat :=
  (m.files.map List.length).sum + m.files.length + 2

/-- Iterating the pipeline to exhaustion with sufficient fuel. -/
def pipelineRun (m : MultiFileCSVStream) (hs : Headers) : List String × Headers × PyExc :=
  pipelineRunAux (multiFileFuel m) m hs

/-! ## The multi-directory stream (`MultiDirectoryCSVStream`)

A directory is abstracted as its path together with the sorted glob result
for the stream's pattern (the list of file contents; the empty list is a
directory where the pattern matches nothing).  `_open_next_directory` is
recursive in the source; the recursion advances `_current_dir_index`, so
`len(dirs) + 1` fuel always covers it.  The `while True` loop of `__next__`
gets its own fuel exactly like the multi-file loop. -/

/-- The state of a `MultiDirectoryCSVStream`. -/
structure MultiDirectoryCSVStream where
  directories : List (String × List FileRows)
  pattern : String
  hasFormatter : Bool
  hasHeader : Bool
  currentDirIndex : Nat
  currentStream : Option MultiFileCSVStream
deriving DecidableEq, Repr

/-- `MultiDirectoryCSVStream.__init__`. -/
def mkMultiDirectoryCSVStream (directories : List (String × List FileRows))
    (pattern : String) (hasFormatter hasHeader : Bool) : MultiDirectoryCSVStream :=
  { directories := directories, pattern := pattern, hasFormatter := hasFormatter,
    hasHeader := hasHeader, currentDirIndex := 0, currentStream := none }

/-- `MultiDirectoryCSVStream._open_next_directory`: try to construct a
`MultiFileCSVStream` for the directory at the current index; on any
exception (the no-matching-files error) advance the index and recurse.  The
previously current stream is closed before the attempt; on overall failure
the state keeps its (closed) current stream, as in the source. -/
def openNextDirectoryAux : Nat → MultiDirectoryCSVStream →
    MultiDirectoryCSVStream × Bool
  | 0, st => (st, false)
  | fuel + 1, st =>
    if st.directories.length ≤ st.currentDirIndex then (st, false)
    else
      let dir := st.directories.getD st.currentDirIndex ("", [])
      match mkMultiFileCSVStream dir.1 st.pattern dir.2 st.hasFormatter st.hasHeader with
      | Except.ok m =>
        ({ st with currentStream := some m,
                   currentDirIndex := st.currentDirIndex + 1 }, true)
      | Except.error _ =>
        openNextDirectoryAux fuel { st with currentDirIndex := st.currentDirIndex + 1 }

/-- `MultiDirectoryCSVStream._open_next_directory` with its recursion fuel
resolved. -/
def openNextDirectory (st : MultiDirectoryCSVStream) : MultiDirectoryCSVStream × Bool :=
  openNextDirectoryAux (st.directories.length + 1) st

/-- The `while True` loop of `MultiDirectoryCSVStream.__next__`, one fuel
unit per iteration; every iteration beyond the first follows a successful
`_open_next_directory`, which advances the directory index. -/
def multiDirNextAux : Nat → MultiDirectoryCSVStream → Headers →
    MultiDirectoryCSVStream × Headers × Except PyExc String
  | 0, st, hs => (st, hs, Except.error PyExc.stopIteration)
  | fuel + 1, st, hs =>
    match st.currentStream with
    | none =>
      match openNextDirectory st with
      | (st1, false) => (st1, hs, Except.error PyExc.stopIteration)
      | (st1, true) => multiDirNextAux fuel st1 hs
    | some m =>
      match multiFileNext m hs with
      | (m1, hs1, Except.ok v) =>
        ({ st with currentStream := some m1 }, hs1, Except.ok v)
      | (m1, hs1, Except.error PyExc.stopIteration) =>
        match openNextDirectory { st with currentStream := some m1 } with
        | (st2, false) => (st2, hs1, Except.error PyExc.stopIteration)
        | (st2, true) => multiDirNextAux fuel st2 hs1
      | (m1, hs1, Except.error e) =>
        ({ st with currentStream := some m1 }, hs1, Except.error e)

/-- `MultiDirectoryCSVStream.__next__`. -/
def multiDirNext (st : MultiDirectoryCSVStream) (hs : Headers) :
    MultiDirectoryCSVStream × Headers × Except PyExc String :=
  multiDirNextAux (2 * st.directories.length + 3) st hs

/-- Iterating a `MultiDirectoryCSVStream` until a call raises, collecting
the yielded lines and the exception that ended the iteration. -/
def multiDirRunAux : Nat → MultiDirectoryCSVStream → Headers →
    List String × MultiDirectoryCSVStream × Headers × PyExc
  | 0, st, hs => ([], st, hs, PyExc.stopIteration)
  | fuel + 1, st, hs =>
    match multiDirNext st hs with
    | (st1, hs1, Except.ok v) =>
      let rest := multiDirRunAux fuel st1 hs1
      (v :: rest.1, rest.2)
    | (st1, hs1, Except.error e) => ([], st1, hs1, e)

/-! ## The output sink (`FileOutputStream`)

The destination file is modelled as `Option String`: `none` when the file
does not exist, `some content` otherwise; `open(path, 'w')` creates or
truncates it and `write` appends (the sink's items are strings, so
`str(item)` is the item itself). -/

/-- Modelled from the spec: the `Stream`/`OutputStream` base class
(stream/Stream.py) is consumed by `FileStream.py` but is not under src/.
Per the specification, `add_item` accumulates items in the in-memory queue,
`close()` marks the stream closed, and iterating the stream yields the
accumulated items in order. -/
structure OutputStreamBase where
  queue : List String
  closed : Bool
deriving DecidableEq, Repr

/-- Modelled from the spec: `OutputStream.add_item` appends to the queue. -/
def baseAddItem (b : OutputStreamBase) (item : String) : OutputStreamBase :=
  { b with queue := b.queue ++ [item] }

/-- Modelled from the spec: `Stream.close` marks the end of the stream. -/
def baseClose (b : OutputStreamBase) : OutputStreamBase :=
  { b with closed := true }

/-- The state of a `FileOutputStream` together with its destination file. -/
structure FileOutputStream where
  isAsync : Bool
  base : OutputStreamBase
  fileContent : Option String
  fileOpen : Bool
deriving DecidableEq, Repr

/-- `FileOutputStream.__init__` over the prior content of the destination
file (`none` when absent): asynchronous mode opens (creates or truncates)
the file immediately; synchronous mode leaves it untouched. -/
def mkFileOutputStream (isAsync : Bool) (priorFile : Option String) : FileOutputStream :=
  if isAsync then
    { isAsync := true, base := { queue := [], closed := false },
      fileContent := some "", fileOpen := true }
  else
    { isAsync := false, base := { queue := [], closed := false },
      fileContent := priorFile, fileOpen := false }

/-- `FileOutputStream.add_item`: asynchronous mode writes `str(item)` to the
file immediately; synchronous mode buffers it via the base class. -/
def addItem (s : FileOutputStream) (item : String) : FileOutputStream :=
  if s.isAsync then
    { s with fileContent := some (s.fileContent.getD "" ++ item) }
  else
    { s with base := baseAddItem s.base item }

/-- `String.join` of the buffered items, in order. -/
def concatItems : List String → String
  | [] => ""
  | s :: rest => s ++ concatItems rest

/-- `FileOutputStream.close`: close the base stream; in synchronous mode
open (truncate) the destination and write every buffered item in order;
finally close the file. -/
def closeOutput (s : FileOutputStream) : FileOutputStream :=
  let s1 := { s with base := baseClose s.base }
  if s1.isAsync then { s1 with fileOpen := false }
  else { s1 with fileContent := some (concatItems s1.base.queue), fileOpen := false }

/-! ## Theorems -/

theorem headersFalsy_some_false (hs : List String) (hne : hs ≠ []) :
    headersFalsy (some hs) = false := by
  cases hs with
  | nil => exact absurd rfl hne
  | cons a t => rfl

/-- C3, counterexample: the claim says a captured header is never replaced by
`set_headers` with a different argument, but `set_headers` assigns
unconditionally: on the established header `["a"]` it installs the different
header `["b"]`. -/
theorem set_headers_overwrites_counterexample :
    set_headers (some ["a"]) ["b"] = some ["b"] ∧ (some ["b"] : Headers) ≠ some ["a"] := by
  decide

/-- C3, amended: once a nonempty header is captured, `parse_event` never
replaces it (a later header-looking line is suppressed or parsed, never
re-captured); `set_headers`, by contrast, unconditionally overwrites the
header field with its argument. -/
theorem captured_header_stable (hs : List String) (hne : hs ≠ []) (line : String)
    (old : Headers) (newHeaders : List String) :
    (parse_event (some hs) line).1 = some hs ∧
    set_headers old newHeaders = some newHeaders := by
  refine ⟨?_, rfl⟩
  have hf := headersFalsy_some_false hs hne
  simp only [parse_event, hf, Bool.false_eq_true, if_false]
  split
  · rfl
  · split
    · rfl
    · rfl

theorem captured_header_stable_witness :
    (parse_event (some ["a"]) "x,y").1 = some ["a"] ∧
    set_headers (some ["a"]) ["b"] = some ["b"] :=
  captured_header_stable ["a"] (by decide) "x,y" (some ["a"]) ["b"]

/-- C5, counterexample: a row matching 5 of the 15 known Variant-B names is
not skipped once a (different) header has been captured: with the captured
header `["a","b","c","d","e"]`, `parse_event` returns a record for the
Variant-B header line instead of `SKIP`, because the heuristic
`is_header_row` is only consulted while no header is set. -/
theorem header_heuristic_counterexample :
    is_header_row (splitValues
      "tripduration,starttime,stoptime,start station id,start station name") = true ∧
    (parse_event (some ["a", "b", "c", "d", "e"])
        "tripduration,starttime,stoptime,start station id,start station name").2 =
      Except.ok (some [("a", PyVal.str "tripduration"), ("b", PyVal.str "starttime"),
        ("c", PyVal.str "stoptime"), ("d", PyVal.str "start station id"),
        ("e", PyVal.str "start station name")]) := by
  decide

/-- C5, amended: a row matching at least 5 of the 15 known Variant-B names
(case-sensitive, position-independent) is classified as a header and skipped
only while no header is captured (the row is then captured as the header);
after a nonempty header is captured, such a row is skipped exactly when it
textually equals the captured header, and is otherwise parsed as a record
whenever its field count matches. -/
theorem header_heuristic_before_capture (hs0 : Headers) (line : String)
    (hfalsy : headersFalsy hs0 = true)
    (hhdr : is_header_row (splitValues line) = true) :
    parse_event hs0 line = (some (splitValues line), Except.ok none) ∧
    (∀ hs : List String, hs ≠ [] → splitValues line = hs →
      (parse_event (some hs) line).2 = Except.ok none) ∧
    (∀ hs : List String, hs ≠ [] → splitValues line ≠ hs →
      (splitValues line).length = hs.length →
      (parse_event (some hs) line).2 =
        Except.ok (some ((hs.zip (splitValues line)).map
          (fun p => (p.1, convertField p.1 p.2))))) := by
  refine ⟨?_, ?_, ?_⟩
  · simp only [parse_event, hfalsy, hhdr, if_true]
  · intro hs hne heq
    have hf := headersFalsy_some_false hs hne
    simp only [parse_event, hf, Bool.false_eq_true, if_false, Option.getD_some, heq, if_true]
  · intro hs hne hneq hlen
    have hf := headersFalsy_some_false hs hne
    simp only [parse_event, hf, Bool.false_eq_true, if_false, Option.getD_some]
    rw [if_neg hneq, if_neg (by simp [hlen])]

theorem header_heuristic_before_capture_witness :
    parse_event none "tripduration,starttime,stoptime,start station id,start station name" =
      (some (splitValues
        "tripduration,starttime,stoptime,start station id,start station name"),
       Except.ok none) ∧
    (∀ hs : List String, hs ≠ [] →
      splitValues
        "tripduration,starttime,stoptime,start station id,start station name" = hs →
      (parse_event (some hs)
        "tripduration,starttime,stoptime,start station id,start station name").2 =
        Except.ok none) ∧
    (∀ hs : List String, hs ≠ [] →
      splitValues
        "tripduration,starttime,stoptime,start station id,start station name" ≠ hs →
      (splitValues
        "tripduration,starttime,stoptime,start station id,start station name").length =
        hs.length →
      (parse_event (some hs)
        "tripduration,starttime,stoptime,start station id,start station name").2 =
        Except.ok (some ((hs.zip (splitValues
          "tripduration,starttime,stoptime,start station id,start station name")).map
          (fun p => (p.1, convertField p.1 p.2))))) :=
  header_heuristic_before_capture none
    "tripduration,starttime,stoptime,start station id,start station name"
    (by decide) (by decide)

/-- C7, counterexample: the claim says each schema variant's own
latitude/longitude columns are coerced; but with the Variant-A header
`["ride_id","start_lat"]` the value `"1.5"` under `start_lat` stays text
even though `float("1.5")` succeeds, because only the four Variant-B column
names are in the coercion list. -/
theorem latlng_coercion_counterexample :
    pyFloatOk "1.5" = true ∧
    (parse_event (some ["ride_id", "start_lat"]) "x,1.5").2 =
      Except.ok (some [("ride_id", PyVal.str "x"), ("start_lat", PyVal.str "1.5")]) := by
  decide

/-- C7, amended: every successfully parsed record pairs each header column
with `convertField`, which coerces exactly the four Variant-B
latitude/longitude column names to floating point (keeping the raw text when
the coercion fails) and leaves every other column, including Variant A's
`start_lat`/`start_lng`, as unmodified text. -/
theorem latlng_coercion_amended (hs : List String) (line : String) (r : Record)
    (h : (parse_event (some hs) line).2 = Except.ok (some r)) :
    r = (hs.zip (splitValues line)).map (fun p => (p.1, convertField p.1 p.2)) ∧
    (∀ hname v, numericHeaders.contains hname = true →
      convertField hname v = if pyFloatOk v then PyVal.float v else PyVal.str v) ∧
    (∀ hname v, numericHeaders.contains hname = false →
      convertField hname v = PyVal.str v) := by
  refine ⟨?_, ?_, ?_⟩
  · simp only [parse_event] at h
    split at h
    · split at h <;> simp at h
    · split at h
      · simp at h
      · split at h
        · simp at h
        · simp only [Option.getD_some, Except.ok.injEq, Option.some.injEq] at h
          exact h.symm
  · intro hname v hmem
    unfold convertField
    rw [hmem]
    simp
  · intro hname v hmem
    unfold convertField
    rw [hmem]
    simp

theorem latlng_coercion_amended_witness :
    ([("start station latitude", PyVal.float "40.75"), ("b", PyVal.str "q")] : Record) =
      ((["start station latitude", "b"].zip (splitValues "40.75,q")).map
        (fun p => (p.1, convertField p.1 p.2))) ∧
    (∀ hname v, numericHeaders.contains hname = true →
      convertField hname v = if pyFloatOk v then PyVal.float v else PyVal.str v) ∧
    (∀ hname v, numericHeaders.contains hname = false →
      convertField hname v = PyVal.str v) :=
  latlng_coercion_amended ["start station latitude", "b"] "40.75,q"
    [("start station latitude", PyVal.float "40.75"), ("b", PyVal.str "q")] (by decide)

/-- C8: with a captured header of `m` columns and a row of `n` values,
`n ≠ m`, `parse_event` raises the shape-mismatch exception whose message
names both the expected count `m` and the actual count `n`, and no record is
returned. -/
theorem shape_mismatch_error (hs : List String) (line : String)
    (hne : hs ≠ []) (hlen : (splitValues line).length ≠ hs.length) :
    parse_event (some hs) line = (some hs, Except.error (PyExc.exception
      ("Data mismatch: expected " ++ toString hs.length ++
       " values but got " ++ toString (splitValues line).length))) := by
  have hf := headersFalsy_some_false hs hne
  have hneq : splitValues line ≠ hs := fun heq => hlen (by rw [heq])
  simp only [parse_event, hf, Bool.false_eq_true, if_false, Option.getD_some]
  rw [if_neg hneq, if_pos hlen]

theorem shape_mismatch_error_witness :
    parse_event (some ["a", "b", "c", "d", "e"]) "1,2,3,4" =
      (some ["a", "b", "c", "d", "e"], Except.error (PyExc.exception
        ("Data mismatch: expected " ++ toString (["a", "b", "c", "d", "e"] : List String).length ++
         " values but got " ++ toString (splitValues "1,2,3,4").length))) :=
  shape_mismatch_error ["a", "b", "c", "d", "e"] "1,2,3,4" (by decide) (by decide)

/-- C6: `get_event_timestamp` tries the fractional-seconds pattern first,
then the pattern without fraction, and on success returns milliseconds since
the epoch; at UTC offset 0 (the specification's UTC convention for the
environment-dependent `datetime.timestamp()`), `"2021-01-01 08:00:00.500"`
yields 1609488000500, `"2021-01-01 08:00:00"` yields 1609488000000, and an
input rejected by both patterns, such as `"not-a-time"`, raises the
unparseable-timestamp exception. -/
theorem timestamp_roundtrip :
    get_event_timestamp 0 [("starttime", PyVal.str "2021-01-01 08:00:00.500")] =
      Except.ok 1609488000500 ∧
    get_event_timestamp 0 [("starttime", PyVal.str "2021-01-01 08:00:00")] =
      Except.ok 1609488000000 ∧
    get_event_timestamp 0 [("starttime", PyVal.str "not-a-time")] =
      Except.error (PyExc.exception "Invalid timestamp format: not-a-time") ∧
    strptimeFrac "2021-01-01 08:00:00" = none ∧
    (∀ (tz : Int) (payload : Record) (s : String) (dt : PyDateTime),
      recordGet payload "starttime" = some (PyVal.str s) → s ≠ "" →
      strptimeFrac s = some dt →
      get_event_timestamp tz payload = Except.ok (datetimeTimestampMs tz dt)) ∧
    (∀ (tz : Int) (payload : Record) (s : String) (dt : PyDateTime),
      recordGet payload "starttime" = some (PyVal.str s) → s ≠ "" →
      strptimeFrac s = none → strptimeNoFrac s = some dt →
      get_event_timestamp tz payload = Except.ok (datetimeTimestampMs tz dt)) ∧
    (∀ (tz : Int) (payload : Record) (s : String),
      recordGet payload "starttime" = some (PyVal.str s) → s ≠ "" →
      strptimeFrac s = none → strptimeNoFrac s = none →
      get_event_timestamp tz payload =
        Except.error (PyExc.exception ("Invalid timestamp format: " ++ s))) := by
  refine ⟨by decide, by decide, by decide, by decide, ?_, ?_, ?_⟩
  · intro tz payload s dt hget hne hfrac
    have hfalsy : pyFalsy (PyVal.str s) = false := by
      simp [pyFalsy, hne]
    simp only [get_event_timestamp, hget, hfalsy, Bool.false_eq_true, if_false, hfrac]
  · intro tz payload s dt hget hne hfrac hnofrac
    have hfalsy : pyFalsy (PyVal.str s) = false := by
      simp [pyFalsy, hne]
    simp only [get_event_timestamp, hget, hfalsy, Bool.false_eq_true, if_false, hfrac, hnofrac]
  · intro tz payload s hget hne hfrac hnofrac
    have hfalsy : pyFalsy (PyVal.str s) = false := by
      simp [pyFalsy, hne]
    simp only [get_event_timestamp, hget, hfalsy, Bool.false_eq_true, if_false, hfrac, hnofrac]

theorem timestamp_roundtrip_witness :
    get_event_timestamp 7 [("starttime", PyVal.str "nope")] =
      Except.error (PyExc.exception ("Invalid timestamp format: " ++ "nope")) :=
  timestamp_roundtrip.2.2.2.2.2.2 7 [("starttime", PyVal.str "nope")] "nope"
    (by decide) (by decide) (by decide) (by decide)

/-- C10: when the record has no `"starttime"` key or holds the empty string
there, `get_event_timestamp` raises the distinct missing-timestamp
exception, before either datetime pattern is tried, and that exception
differs from every unparseable-timestamp exception. -/
theorem missing_starttime_error (tz : Int) (payload : Record)
    (h : recordGet payload "starttime" = none ∨
         recordGet payload "starttime" = some (PyVal.str "")) :
    get_event_timestamp tz payload =
      Except.error (PyExc.exception "No starttime timestamp found in event") ∧
    ∀ s : String, PyExc.exception "No starttime timestamp found in event" ≠
      PyExc.exception ("Invalid timestamp format: " ++ s) := by
  constructor
  · rcases h with h | h
    · simp only [get_event_timestamp, h]
    · have hf : pyFalsy (PyVal.str "") = true := by decide
      simp only [get_event_timestamp, h, hf, if_true]
  · intro s heq
    injection heq with h2
    cases s with
    | mk l =>
      have h3 : ("No starttime timestamp found in event").data =
          ("Invalid timestamp format: ").data ++ l := congrArg String.data h2
      have h4 : (("No starttime timestamp found in event").data).head? =
          (("Invalid timestamp format: ").data ++ l).head? := congrArg List.head? h3
      have h5 : (some 'N' : Option Char) = some 'I' := h4
      injection h5 with h6
      exact absurd h6 (by decide)

theorem missing_starttime_error_witness :
    get_event_timestamp 0 [] =
      Except.error (PyExc.exception "No starttime timestamp found in event") ∧
    ∀ s : String, PyExc.exception "No starttime timestamp found in event" ≠
      PyExc.exception ("Invalid timestamp format: " ++ s) :=
  missing_starttime_error 0 [] (Or.inl (by decide))

/-- C2: the claim says every call after exhaustion raises `StopIteration`
and never any other error, but the code contradicts the iterator protocol it
implements: on the file `[["h1","h2"],["1","2"]]` the stream yields `"1,2"`,
then raises `StopIteration` while `_cleanup` nulls `_csv_reader` and leaves
`_is_initialized` set, so the following call evaluates `next(None)` and
raises a `TypeError` instead. -/
theorem next_after_exhaustion_typeError :
    (csvNext (mkCSVFileInputStream [["h1", "h2"], ["1", "2"]] true true) none).2.2 =
      Except.ok "1,2" ∧
    (let t1 := csvNext (mkCSVFileInputStream [["h1", "h2"], ["1", "2"]] true true) none
     (csvNext t1.1 t1.2.1).2.2 = Except.error PyExc.stopIteration ∧
     (csvNext t1.1 t1.2.1).1.fileOpen = false ∧
     (let t2 := csvNext t1.1 t1.2.1
      (csvNext t2.1 t2.2.1).2.2 =
        Except.error (PyExc.typeError "NoneType object is not an iterator"))) := by
  decide

/-- C9: the write-through sink holds `"ab"` in the destination file
immediately after the two appends and before `close()`; the buffered sink
leaves the destination without content (the file is not even created) until
`close()`, after which it holds `"ab"`.  The `Stream` base class is not
under src/ and is modelled from the specification. -/
theorem sink_modes :
    (addItem (addItem (mkFileOutputStream true none) "a") "b").fileContent = some "ab" ∧
    (addItem (addItem (mkFileOutputStream false none) "a") "b").fileContent = none ∧
    ((addItem (addItem (mkFileOutputStream false none) "a") "b").fileContent).getD "" = "" ∧
    (closeOutput (addItem (addItem (mkFileOutputStream false none) "a") "b")).fileContent =
      some "ab" := by
  decide

/-! ## The multi-file pipeline theorem (C1) and its step lemmas -/

theorem csvNext_yield (content : FileRows) (chf chh : Bool) (row : List String)
    (rest : FileRows) (hs : Headers) :
    csvNext ⟨content, chf, chh, true, some (row :: rest), true⟩ hs =
      (⟨content, chf, chh, true, some rest, true⟩, hs, Except.ok (joinComma row)) := rfl

theorem csvNext_exhaust (content : FileRows) (chf chh : Bool) (hs : Headers) :
    csvNext ⟨content, chf, chh, true, some [], true⟩ hs =
      (⟨content, chf, chh, false, none, true⟩, hs, Except.error PyExc.stopIteration) := rfl

theorem csvNext_fresh_noheader (row : List String) (rest : FileRows) (chf : Bool) (hs : Headers) :
    csvNext (mkCSVFileInputStream (row :: rest) chf false) hs =
      (⟨row :: rest, chf, false, true, some rest, true⟩, hs, Except.ok (joinComma row)) := rfl

theorem csvNext_fresh_header_yield (hrow row : List String) (rest : FileRows) (hs : Headers) :
    csvNext (mkCSVFileInputStream (hrow :: row :: rest) true true) hs =
      (⟨hrow :: row :: rest, true, true, true, some rest, true⟩, some hrow,
        Except.ok (joinComma row)) := rfl

theorem csvNext_fresh_header_empty (hrow : List String) (hs : Headers) :
    csvNext (mkCSVFileInputStream [hrow] true true) hs =
      (⟨[hrow], true, true, false, none, true⟩, some hrow,
        Except.error PyExc.stopIteration) := rfl

theorem multiFileNext_yield (d p : String) (files : List FileRows) (hfm hh : Bool)
    (idx : Nat) (hr : Bool) (s s1 : CSVFileInputStream) (hs hs1 : Headers) (v : String)
    (hnext : csvNext s hs = (s1, hs1, Except.ok v)) :
    multiFileNext ⟨d, p, files, hfm, hh, idx, some s, hr⟩ hs =
      (⟨d, p, files, hfm, hh, idx, some s1, hr⟩, hs1, Except.ok v) := by
  unfold multiFileNext
  simp only [multiFileNextAux, hnext]

theorem multiFileNext_first_yield (d p : String) (files : List FileRows) (idx : Nat)
    (hrow row : List String) (frest : FileRows) (hs : Headers)
    (hlt : idx < files.length) (hget : files[idx]? = some (hrow :: row :: frest)) :
    multiFileNext ⟨d, p, files, true, true, idx, none, false⟩ hs =
      (⟨d, p, files, true, true, idx + 1,
        some ⟨hrow :: row :: frest, true, true, true, some frest, true⟩, true⟩,
       some hrow, Except.ok (joinComma row)) := by
  unfold multiFileNext
  simp [multiFileNextAux, openNextFile, Nat.not_le.mpr hlt, hget,
    mkCSVFileInputStream, csvNext, csvLazyInit, csvCleanup, set_headers]

theorem multiFileNext_stop_end (d p : String) (files : List FileRows) (hfm hh : Bool)
    (idx : Nat) (hr : Bool) (s s1 : CSVFileInputStream) (hs hs1 : Headers)
    (hnext : csvNext s hs = (s1, hs1, Except.error PyExc.stopIteration))
    (hge : files.length ≤ idx) :
    multiFileNext ⟨d, p, files, hfm, hh, idx, some s, hr⟩ hs =
      (⟨d, p, files, hfm, hh, idx, some s1, hr⟩, hs1, Except.error PyExc.stopIteration) := by
  unfold multiFileNext
  simp only [multiFileNextAux, hnext, openNextFile, if_pos hge]

theorem multiFileNext_transition (d p : String) (files : List FileRows) (idx : Nat)
    (s s1 : CSVFileInputStream) (hs hs1 : Headers)
    (hnext : csvNext s hs = (s1, hs1, Except.error PyExc.stopIteration))
    (hlt : idx < files.length) (hrow : List String) (frest : FileRows)
    (hget : files[idx]? = some (hrow :: frest)) :
    multiFileNext ⟨d, p, files, true, true, idx, some s, true⟩ hs =
      (⟨d, p, files, true, true, idx + 1,
        some ⟨hrow :: frest, true, false, true, some frest, true⟩, true⟩,
       hs1, Except.ok (joinComma hrow)) := by
  unfold multiFileNext
  simp only [multiFileNextAux, hnext]
  simp [openNextFile, Nat.not_le.mpr hlt, hget, mkCSVFileInputStream, csvNext,
    csvLazyInit, csvCleanup]

theorem parse_data_row (H r : List String) (hH : H ≠ [])
    (hsplit : splitValues (joinComma r) = r) (hlen : r.length = H.length) (hne : r ≠ H) :
    parse_event (some H) (joinComma r) =
      (some H, Except.ok (some ((H.zip r).map (fun p => (p.1, convertField p.1 p.2))))) := by
  have hf := headersFalsy_some_false H hH
  simp only [parse_event, hsplit, hf, Bool.false_eq_true, if_false, Option.getD_some]
  rw [if_neg hne, if_neg (by simp [hlen])]

theorem parse_header_line (H : List String) (hH : H ≠ [])
    (hsplit : splitValues (joinComma H) = H) :
    parse_event (some H) (joinComma H) = (some H, Except.ok none) := by
  have hf := headersFalsy_some_false H hH
  simp only [parse_event, hsplit, hf, Bool.false_eq_true, if_false, Option.getD_some]
  simp

theorem pipelineRunAux_drain (H : List String) (hH : H ≠ [])
    (hHsplit : splitValues (joinComma H) = H) :
    ∀ (fuel : Nat) (rest : List (List (List String))) (rows : List (List String))
      (d p : String) (files : List FileRows) (idx : Nat)
      (content : FileRows) (chf chh : Bool),
      files.drop idx = rest.map (fun rs => H :: rs) →
      (∀ r ∈ rows, splitValues (joinComma r) = r ∧ r.length = H.length ∧ r ≠ H) →
      (∀ rs ∈ rest, ∀ r ∈ rs, splitValues (joinComma r) = r ∧ r.length = H.length ∧ r ≠ H) →
      rows.length + (rest.map (fun rs => rs.length + 1)).sum + 1 ≤ fuel →
      pipelineRunAux fuel
        ⟨d, p, files, true, true, idx, some ⟨content, chf, chh, true, some rows, true⟩, true⟩
        (some H) =
        ((rows ++ rest.flatten).map joinComma, some H, PyExc.stopIteration) := by
  intro fuel
  induction fuel using Nat.strong_induction_on with
  | _ fuel ih =>
    intro rest rows d p files idx content chf chh hdrop hrows hrest hfuel
    cases fuel with
    | zero => exact absurd hfuel (by omega)
    | succ f =>
      cases rows with
      | cons r rows' =>
        have hr := hrows r (List.mem_cons_self r rows')
        have h1 := multiFileNext_yield d p files true true idx true _ _ (some H) (some H)
          (joinComma r) (csvNext_yield content chf chh r rows' (some H))
        have h2 := parse_data_row H r hH hr.1 hr.2.1 hr.2.2
        have h3 := ih f (by omega) rest rows' d p files idx content chf chh hdrop
          (fun x hx => hrows x (List.mem_cons_of_mem _ hx)) hrest
          (by simp only [List.length_cons] at hfuel; omega)
        simp only [pipelineRunAux, h1, h2, h3]
        simp
      | nil =>
        cases rest with
        | nil =>
          have hge : files.length ≤ idx := by
            simp only [List.map_nil] at hdrop
            exact List.drop_eq_nil_iff.mp hdrop
          have h1 := multiFileNext_stop_end d p files true true idx true _ _ (some H) (some H)
            (csvNext_exhaust content chf chh (some H)) hge
          simp only [pipelineRunAux, h1]
          simp
        | cons rs rest' =>
          have hlt : idx < files.length := by
            by_contra hc
            rw [List.drop_eq_nil_of_le (by omega)] at hdrop
            simp at hdrop
          have hget : files[idx]? = some (H :: rs) := by
            have h1 : (files.drop idx).head? = some (H :: rs) := by rw [hdrop]; rfl
            rw [List.head?_drop] at h1
            exact h1
          have h1 := multiFileNext_transition d p files idx _ _ (some H) (some H)
            (csvNext_exhaust content chf chh (some H)) hlt H rs hget
          have h2 := parse_header_line H hH hHsplit
          have hdrop2 : files.drop (idx + 1) = rest'.map (fun rs => H :: rs) := by
            have h4 := congrArg (List.drop 1) hdrop
            rw [List.drop_drop] at h4
            simpa using h4
          have h3 := ih f (by omega) rest' rs d p files (idx + 1) (H :: rs) true false hdrop2
            (hrest rs (List.mem_cons_self rs rest'))
            (fun x hx => hrest x (List.mem_cons_of_mem _ hx))
            (by simp only [List.map_cons, List.sum_cons, List.length_nil] at hfuel ⊢; omega)
          simp only [pipelineRunAux, h1, h2, h3]
          simp

theorem multiFileNext_first_only_header_end (d p : String) (files : List FileRows)
    (idx : Nat) (hrow : List String) (hs : Headers)
    (hlt : idx < files.length) (hget : files[idx]? = some [hrow])
    (hge : files.length ≤ idx + 1) :
    multiFileNext ⟨d, p, files, true, true, idx, none, false⟩ hs =
      (⟨d, p, files, true, true, idx + 1, some ⟨[hrow], true, true, false, none, true⟩, true⟩,
       some hrow, Except.error PyExc.stopIteration) := by
  unfold multiFileNext
  simp [multiFileNextAux, openNextFile, Nat.not_le.mpr hlt, hget, hge,
    mkCSVFileInputStream, csvNext, csvLazyInit, csvCleanup, set_headers]

theorem multiFileNext_first_only_header_continue (d p : String) (files : List FileRows)
    (idx : Nat) (hrow hrow2 : List String) (frest2 : FileRows) (hs : Headers)
    (hlt : idx < files.length) (hget : files[idx]? = some [hrow])
    (hlt2 : idx + 1 < files.length) (hget2 : files[idx + 1]? = some (hrow2 :: frest2)) :
    multiFileNext ⟨d, p, files, true, true, idx, none, false⟩ hs =
      (⟨d, p, files, true, true, idx + 1 + 1,
        some ⟨hrow2 :: frest2, true, false, true, some frest2, true⟩, true⟩,
       some hrow, Except.ok (joinComma hrow2)) := by
  unfold multiFileNext
  rw [show files.length + 2 = files.length - 2 + 4 from by omega]
  simp [multiFileNextAux, openNextFile, Nat.not_le.mpr hlt, Nat.not_le.mpr hlt2,
    hget, hget2, mkCSVFileInputStream, csvNext, csvLazyInit, csvCleanup, set_headers]

theorem pipelineRunAux_full (d p : String) (H : List String) (hH : H ≠ [])
    (hHsplit : splitValues (joinComma H) = H)
    (rows1 : List (List String)) (rest : List (List (List String)))
    (hrows : ∀ rs ∈ rows1 :: rest, ∀ r ∈ rs,
      splitValues (joinComma r) = r ∧ r.length = H.length ∧ r ≠ H)
    (fuel : Nat)
    (hfuel : ((rows1 :: rest).map (fun rs => rs.length + 1)).sum + 1 ≤ fuel) :
    pipelineRunAux fuel
      ⟨d, p, (rows1 :: rest).map (fun rs => H :: rs), true, true, 0, none, false⟩ none =
      (((rows1 :: rest).flatten).map joinComma, some H, PyExc.stopIteration) := by
  cases fuel with
  | zero => exact absurd hfuel (by omega)
  | succ f =>
    cases rows1 with
    | cons r rows' =>
      have hr := hrows (r :: rows') (List.mem_cons_self _ _) r (List.mem_cons_self _ _)
      have h1 := multiFileNext_first_yield d p
        (((r :: rows') :: rest).map (fun rs => H :: rs)) 0 H r rows' none
        (by simp) (by simp)
      have h2 := parse_data_row H r hH hr.1 hr.2.1 hr.2.2
      have h3 := pipelineRunAux_drain H hH hHsplit f rest rows' d p
        (((r :: rows') :: rest).map (fun rs => H :: rs)) (0 + 1) (H :: r :: rows') true true
        (by simp)
        (fun x hx => hrows (r :: rows') (List.mem_cons_self _ _) x (List.mem_cons_of_mem _ hx))
        (fun rs hrs x hx => hrows rs (List.mem_cons_of_mem _ hrs) x hx)
        (by simp only [List.map_cons, List.sum_cons, List.length_cons] at hfuel ⊢; omega)
      simp only [pipelineRunAux, List.map_cons] at h1 h3 ⊢
      simp only [h1, h2, h3]
      simp
    | nil =>
      cases rest with
      | nil =>
        have h1 := multiFileNext_first_only_header_end d p
          ((([] : List (List String)) :: []).map (fun rs => H :: rs)) 0 H none
          (by simp) (by simp) (by simp)
        simp only [pipelineRunAux, List.map_cons, List.map_nil] at h1 ⊢
        simp only [h1]
        simp
      | cons rs2 rest' =>
        have h1 := multiFileNext_first_only_header_continue d p
          ((([] : List (List String)) :: rs2 :: rest').map (fun rs => H :: rs)) 0 H H rs2 none
          (by simp) (by simp) (by simp) (by simp)
        have h2 := parse_header_line H hH hHsplit
        have h3 := pipelineRunAux_drain H hH hHsplit f rest' rs2 d p
          ((([] : List (List String)) :: rs2 :: rest').map (fun rs => H :: rs)) (0 + 1 + 1)
          (H :: rs2) true false
          (by simp)
          (hrows rs2 (by simp))
          (fun x hx => hrows x (by simp [hx]))
          (by simp only [List.map_cons, List.sum_cons, List.length_nil] at hfuel ⊢; omega)
        simp only [pipelineRunAux, List.map_cons] at h1 h3 ⊢
        simp only [h1, h2, h3]
        simp

theorem sum_len_files (H : List String) (l : List (List (List String))) :
    ((l.map (fun rs => H :: rs)).map List.length).sum =
      (l.map (fun rs => rs.length + 1)).sum := by
  induction l with
  | nil => rfl
  | cons a t ih =>
    simp only [List.map_cons, List.sum_cons, List.length_cons]
    rw [ih]

theorem flatten_length (l : List (List (List String))) :
    l.flatten.length = (l.map List.length).sum := by
  induction l with
  | nil => rfl
  | cons a t ih => simp [ih]

/-- C1: for a directory of files that each begin with the identical header
row `H` followed by data rows, running the multi-file stream to exhaustion
through the formatter (the pipeline) yields exactly the data rows, in
file-then-row order, their number is the sum of the per-file row counts, the
iteration ends in `StopIteration`, and the header line is never one of the
yielded data items.  (The raw stream yields the later files' header lines
too, opened with header capture disabled; the formatter's duplicate-header
suppression removes them, which is the "never yielded as data" reading the
specification states.) -/
theorem multiFile_pipeline_no_loss (d p : String) (H : List String)
    (dataFiles : List (List (List String)))
    (hne : dataFiles ≠ []) (hH : H ≠ [])
    (hHsplit : splitValues (joinComma H) = H)
    (hrows : ∀ rs ∈ dataFiles, ∀ r ∈ rs,
      splitValues (joinComma r) = r ∧ r.length = H.length ∧ r ≠ H) :
    ∃ m, mkMultiFileCSVStream d p (dataFiles.map (fun rs => H :: rs)) true true =
        Except.ok m ∧
      pipelineRun m none = ((dataFiles.flatten).map joinComma, some H, PyExc.stopIteration) ∧
      ((dataFiles.flatten).map joinComma).length = (dataFiles.map List.length).sum ∧
      joinComma H ∉ (dataFiles.flatten).map joinComma := by
  obtain ⟨rows1, rest, rfl⟩ : ∃ a b, dataFiles = a :: b := by
    cases dataFiles with
    | nil => exact absurd rfl hne
    | cons a b => exact ⟨a, b, rfl⟩
  refine ⟨⟨d, p, (rows1 :: rest).map (fun rs => H :: rs), true, true, 0, none, false⟩,
    rfl, ?_, ?_, ?_⟩
  · unfold pipelineRun multiFileFuel
    exact pipelineRunAux_full d p H hH hHsplit rows1 rest hrows _
      (by rw [sum_len_files H (rows1 :: rest)]; omega)
  · rw [List.length_map, flatten_length]
  · intro hmem
    rw [List.mem_map] at hmem
    obtain ⟨r, hrf, hjoin⟩ := hmem
    rw [List.mem_flatten] at hrf
    obtain ⟨rs, hrs, hr⟩ := hrf
    have h := hrows rs hrs r hr
    have hrH : r = H := by
      have h5 : splitValues (joinComma r) = splitValues (joinComma H) := by rw [hjoin]
      rw [h.1, hHsplit] at h5
      exact h5
    exact h.2.2 hrH

theorem multiFile_pipeline_no_loss_witness :
    ∃ m, mkMultiFileCSVStream "dir" "csv"
        (([[["1", "2"], ["3", "4"]], [["5", "6"]]] : List (List (List String))).map
          (fun rs => ["a", "b"] :: rs)) true true = Except.ok m ∧
      pipelineRun m none =
        ((([[["1", "2"], ["3", "4"]], [["5", "6"]]] : List (List (List String))).flatten).map
          joinComma, some ["a", "b"], PyExc.stopIteration) ∧
      ((([[["1", "2"], ["3", "4"]], [["5", "6"]]] : List (List (List String))).flatten).map
        joinComma).length =
        (([[["1", "2"], ["3", "4"]], [["5", "6"]]] : List (List (List String))).map
          List.length).sum ∧
      joinComma ["a", "b"] ∉
        (([[["1", "2"], ["3", "4"]], [["5", "6"]]] : List (List (List String))).flatten).map
          joinComma :=
  multiFile_pipeline_no_loss "dir" "csv" ["a", "b"]
    [[["1", "2"], ["3", "4"]], [["5", "6"]]]
    (by decide) (by decide) (by decide) (by decide)

/-! ## The multi-directory theorem (C4) and its step lemmas -/

theorem multiFileRunAux_cons_inv (f : Nat) (m : MultiFileCSVStream) (hs : Headers)
    (v : String) (out : List String) (m' : MultiFileCSVStream) (hs' : Headers) (e : PyExc)
    (h : multiFileRunAux f m hs = (v :: out, m', hs', e)) :
    ∃ g m1 hs1, f = g + 1 ∧ multiFileNext m hs = (m1, hs1, Except.ok v) ∧
      multiFileRunAux g m1 hs1 = (out, m', hs', e) := by
  cases f with
  | zero => simp [multiFileRunAux] at h
  | succ g =>
    simp only [multiFileRunAux] at h
    rcases hnx : multiFileNext m hs with ⟨m1, hs1, r⟩
    rw [hnx] at h
    cases r with
    | ok w =>
      dsimp only at h
      rcases hrun : multiFileRunAux g m1 hs1 with ⟨o2, m2, hs2, e2⟩
      rw [hrun] at h
      dsimp only at h
      simp only [Prod.mk.injEq, List.cons.injEq] at h
      obtain ⟨⟨rfl, rfl⟩, rfl, rfl, rfl⟩ := h
      exact ⟨g, m1, hs1, rfl, by simp [hnx], hrun⟩
    | error e2 => simp at h

theorem multiFileRunAux_nil_inv (f : Nat) (m : MultiFileCSVStream) (hs : Headers)
    (m' : MultiFileCSVStream) (hs' : Headers) (e : PyExc)
    (h2 : multiFileRunAux (f + 1) m hs = ([], m', hs', e)) :
    multiFileNext m hs = (m', hs', Except.error e) := by
  simp only [multiFileRunAux] at h2
  rcases hnx : multiFileNext m hs with ⟨m1, hs1, r⟩
  rw [hnx] at h2
  cases r with
  | ok w => simp at h2
  | error e2 =>
    simp only [Prod.mk.injEq] at h2
    obtain ⟨-, rfl, rfl, rfl⟩ := h2
    rfl

theorem openNextDirectoryAux_found :
    ∀ (emptyRun : List (String × List FileRows)) (fuel : Nat)
      (dirs : List (String × List FileRows)) (pat : String) (hf hh : Bool) (idx : Nat)
      (cur : Option MultiFileCSVStream) (dd : String × List FileRows)
      (rest : List (String × List FileRows)),
      dirs.drop idx = emptyRun ++ dd :: rest →
      (∀ x ∈ emptyRun, x.2 = []) → dd.2 ≠ [] →
      emptyRun.length + 1 ≤ fuel →
      openNextDirectoryAux fuel ⟨dirs, pat, hf, hh, idx, cur⟩ =
        (⟨dirs, pat, hf, hh, idx + emptyRun.length + 1,
          some ⟨dd.1, pat, dd.2, hf, hh, 0, none, false⟩⟩, true) := by
  intro emptyRun
  induction emptyRun with
  | nil =>
    intro fuel dirs pat hf hh idx cur dd rest hdrop hempty hD hfuel
    cases fuel with
    | zero => exact absurd hfuel (by omega)
    | succ g =>
      have hlt : idx < dirs.length := by
        by_contra hc
        rw [List.drop_eq_nil_of_le (by omega)] at hdrop
        simp at hdrop
      have hget : dirs[idx]? = some dd := by
        have h1 : (dirs.drop idx).head? = some dd := by rw [hdrop]; rfl
        rw [List.head?_drop] at h1
        exact h1
      have hmk : mkMultiFileCSVStream dd.1 pat dd.2 hf hh =
          Except.ok ⟨dd.1, pat, dd.2, hf, hh, 0, none, false⟩ := by
        unfold mkMultiFileCSVStream
        rw [if_neg (by simp [List.isEmpty_iff, hD])]
      simp only [openNextDirectoryAux]
      rw [if_neg (by simp; omega)]
      simp [List.getD_eq_getElem?_getD, hget, hmk]
  | cons x er ih =>
    intro fuel dirs pat hf hh idx cur dd rest hdrop hempty hD hfuel
    cases fuel with
    | zero => exact absurd hfuel (by simp at hfuel)
    | succ g =>
      have hlt : idx < dirs.length := by
        by_contra hc
        rw [List.drop_eq_nil_of_le (by omega)] at hdrop
        simp at hdrop
      have hget : dirs[idx]? = some x := by
        have h1 : (dirs.drop idx).head? = some x := by rw [hdrop]; rfl
        rw [List.head?_drop] at h1
        exact h1
      have hx := hempty x (List.mem_cons_self x er)
      have hmk : mkMultiFileCSVStream x.1 pat x.2 hf hh =
          Except.error (PyExc.exception
            ("No files matching pattern " ++ pat ++ " found in " ++ x.1)) := by
        unfold mkMultiFileCSVStream
        rw [if_pos (by simp [hx])]
      have hdrop2 : dirs.drop (idx + 1) = er ++ dd :: rest := by
        have h4 := congrArg (List.drop 1) hdrop
        rw [List.drop_drop] at h4
        simpa using h4
      have hrec := ih g dirs pat hf hh (idx + 1) cur dd rest hdrop2
        (fun y hy => hempty y (List.mem_cons_of_mem _ hy)) hD
        (by simp only [List.length_cons] at hfuel; omega)
      simp only [openNextDirectoryAux]
      rw [if_neg (by simp; omega)]
      simp only [List.getD_eq_getElem?_getD, hget, Option.getD_some, hmk]
      rw [hrec]
      have harith : idx + 1 + er.length + 1 = idx + (er.length + 1) + 1 := by omega
      simp [harith]

theorem openNextDirectory_found (dirs : List (String × List FileRows)) (pat : String)
    (hf hh : Bool) (idx : Nat) (cur : Option MultiFileCSVStream)
    (emptyRun : List (String × List FileRows)) (dd : String × List FileRows)
    (rest : List (String × List FileRows))
    (hdrop : dirs.drop idx = emptyRun ++ dd :: rest)
    (hempty : ∀ x ∈ emptyRun, x.2 = []) (hD : dd.2 ≠ []) :
    openNextDirectory ⟨dirs, pat, hf, hh, idx, cur⟩ =
      (⟨dirs, pat, hf, hh, idx + emptyRun.length + 1,
        some ⟨dd.1, pat, dd.2, hf, hh, 0, none, false⟩⟩, true) := by
  apply openNextDirectoryAux_found emptyRun _ dirs pat hf hh idx cur dd rest hdrop hempty hD
  have : idx + (emptyRun.length + 1) ≤ dirs.length := by
    have h1 := congrArg List.length hdrop
    rw [List.length_drop] at h1
    simp only [List.length_append, List.length_cons] at h1
    omega
  simp
  omega

theorem openNextDirectoryAux_exhaust :
    ∀ (emptyRun : List (String × List FileRows)) (fuel : Nat)
      (dirs : List (String × List FileRows)) (pat : String) (hf hh : Bool) (idx : Nat)
      (cur : Option MultiFileCSVStream),
      dirs.drop idx = emptyRun →
      (∀ x ∈ emptyRun, x.2 = []) →
      emptyRun.length + 1 ≤ fuel →
      openNextDirectoryAux fuel ⟨dirs, pat, hf, hh, idx, cur⟩ =
        (⟨dirs, pat, hf, hh, idx + emptyRun.length, cur⟩, false) := by
  intro emptyRun
  induction emptyRun with
  | nil =>
    intro fuel dirs pat hf hh idx cur hdrop hempty hfuel
    cases fuel with
    | zero => exact absurd hfuel (by omega)
    | succ g =>
      have hge : dirs.length ≤ idx := List.drop_eq_nil_iff.mp hdrop
      simp only [openNextDirectoryAux]
      rw [if_pos (by simpa using hge)]
      simp
  | cons x er ih =>
    intro fuel dirs pat hf hh idx cur hdrop hempty hfuel
    cases fuel with
    | zero => exact absurd hfuel (by simp at hfuel)
    | succ g =>
      have hlt : idx < dirs.length := by
        by_contra hc
        rw [List.drop_eq_nil_of_le (by omega)] at hdrop
        simp at hdrop
      have hget : dirs[idx]? = some x := by
        have h1 : (dirs.drop idx).head? = some x := by rw [hdrop]; rfl
        rw [List.head?_drop] at h1
        exact h1
      have hx := hempty x (List.mem_cons_self x er)
      have hmk : mkMultiFileCSVStream x.1 pat x.2 hf hh =
          Except.error (PyExc.exception
            ("No files matching pattern " ++ pat ++ " found in " ++ x.1)) := by
        unfold mkMultiFileCSVStream
        rw [if_pos (by simp [hx])]
      have hdrop2 : dirs.drop (idx + 1) = er := by
        have h4 := congrArg (List.drop 1) hdrop
        rw [List.drop_drop] at h4
        simpa using h4
      have hrec := ih g dirs pat hf hh (idx + 1) cur hdrop2
        (fun y hy => hempty y (List.mem_cons_of_mem _ hy))
        (by simp only [List.length_cons] at hfuel; omega)
      simp only [openNextDirectoryAux]
      rw [if_neg (by simp; omega)]
      simp only [List.getD_eq_getElem?_getD, hget, Option.getD_some, hmk]
      rw [hrec]
      have harith : idx + 1 + er.length = idx + (er.length + 1) := by omega
      simp [harith]

theorem openNextDirectory_exhaust (dirs : List (String × List FileRows)) (pat : String)
    (hf hh : Bool) (idx : Nat) (cur : Option MultiFileCSVStream)
    (emptyRun : List (String × List FileRows))
    (hdrop : dirs.drop idx = emptyRun)
    (hempty : ∀ x ∈ emptyRun, x.2 = []) :
    openNextDirectory ⟨dirs, pat, hf, hh, idx, cur⟩ =
      (⟨dirs, pat, hf, hh, idx + emptyRun.length, cur⟩, false) := by
  apply openNextDirectoryAux_exhaust emptyRun _ dirs pat hf hh idx cur hdrop hempty
  have h1 := congrArg List.length hdrop
  rw [List.length_drop] at h1
  simp
  omega

theorem openNextDirectoryAux_success_spec :
    ∀ (fuel : Nat) (st st2 : MultiDirectoryCSVStream),
      openNextDirectoryAux fuel st = (st2, true) →
      st.currentDirIndex < st2.currentDirIndex ∧
      st2.currentDirIndex ≤ st.directories.length ∧
      st2.directories = st.directories := by
  intro fuel
  induction fuel with
  | zero =>
    intro st st2 h
    simp [openNextDirectoryAux] at h
  | succ g ih =>
    intro st st2 h
    simp only [openNextDirectoryAux] at h
    by_cases hc : st.directories.length ≤ st.currentDirIndex
    · rw [if_pos hc] at h
      simp at h
    · rw [if_neg hc] at h
      split at h
      · simp only [Prod.mk.injEq] at h
        obtain ⟨h1, -⟩ := h
        rw [← h1]
        refine ⟨by simp, by simp; omega, rfl⟩
      · have hspec := ih _ _ h
        simp only at hspec
        exact ⟨by omega, by simpa using hspec.2.1, hspec.2.2⟩

theorem openNextDirectory_success_spec (st st2 : MultiDirectoryCSVStream)
    (h : openNextDirectory st = (st2, true)) :
    st.currentDirIndex < st2.currentDirIndex ∧
    st2.currentDirIndex ≤ st.directories.length ∧
    st2.directories = st.directories :=
  openNextDirectoryAux_success_spec _ st st2 h

theorem multiDirNextAux_mono :
    ∀ (f : Nat) (st : MultiDirectoryCSVStream) (hs : Headers),
      st.currentDirIndex ≤ st.directories.length + 1 →
      st.directories.length + 2 ≤ f + st.currentDirIndex →
      multiDirNextAux (f + 1) st hs = multiDirNextAux f st hs := by
  intro f
  induction f using Nat.strong_induction_on with
  | _ f ih =>
    intro st hs hidx hf
    obtain ⟨g, rfl⟩ : ∃ g, f = g + 1 := ⟨f - 1, by omega⟩
    conv_lhs => rw [multiDirNextAux]
    conv_rhs => rw [multiDirNextAux]
    rcases hcur : st.currentStream with - | m
    · rcases hop : openNextDirectory st with ⟨st1, b⟩
      cases b with
      | false => rfl
      | true =>
        obtain ⟨hlt2, hle2, hdirs2⟩ := openNextDirectory_success_spec st st1 hop
        have hlen : st1.directories.length = st.directories.length := by rw [hdirs2]
        exact ih g (by omega) st1 hs (by omega) (by omega)
    · dsimp only
      rcases hnx : multiFileNext m hs with ⟨m1, hs1, r⟩
      cases r with
      | ok v => rfl
      | error e =>
        cases e with
        | stopIteration =>
          dsimp only
          rcases hop : openNextDirectory { st with currentStream := some m1 } with ⟨st2, b⟩
          cases b with
          | false => rfl
          | true =>
            obtain ⟨hlt2, hle2, hdirs2⟩ :=
              openNextDirectory_success_spec { st with currentStream := some m1 } st2 hop
            dsimp only at hlt2 hle2 hdirs2
            have hlen : st2.directories.length = st.directories.length := by rw [hdirs2]
            exact ih g (by omega) st2 hs1 (by omega) (by omega)
        | typeError msg => rfl
        | exception msg => rfl

theorem multiDirNext_yield (dirs : List (String × List FileRows)) (pat : String)
    (hf hh : Bool) (idx : Nat) (m m1 : MultiFileCSVStream) (hs hs1 : Headers) (v : String)
    (hnx : multiFileNext m hs = (m1, hs1, Except.ok v)) :
    multiDirNext ⟨dirs, pat, hf, hh, idx, some m⟩ hs =
      (⟨dirs, pat, hf, hh, idx, some m1⟩, hs1, Except.ok v) := by
  unfold multiDirNext
  simp only [multiDirNextAux, hnx]

theorem multiDirNext_stop_end (dirs : List (String × List FileRows)) (pat : String)
    (hf hh : Bool) (idx : Nat) (m m1 : MultiFileCSVStream) (hs hs1 : Headers)
    (st2 : MultiDirectoryCSVStream)
    (hnx : multiFileNext m hs = (m1, hs1, Except.error PyExc.stopIteration))
    (hop : openNextDirectory ⟨dirs, pat, hf, hh, idx, some m1⟩ = (st2, false)) :
    multiDirNext ⟨dirs, pat, hf, hh, idx, some m⟩ hs =
      (st2, hs1, Except.error PyExc.stopIteration) := by
  unfold multiDirNext
  simp only [multiDirNextAux, hnx, hop]

theorem multiDirNext_stop_open (dirs : List (String × List FileRows)) (pat : String)
    (hf hh : Bool) (idx : Nat) (m m1 : MultiFileCSVStream) (hs hs1 : Headers)
    (st2 : MultiDirectoryCSVStream)
    (hnx : multiFileNext m hs = (m1, hs1, Except.error PyExc.stopIteration))
    (hop : openNextDirectory ⟨dirs, pat, hf, hh, idx, some m1⟩ = (st2, true)) :
    multiDirNext ⟨dirs, pat, hf, hh, idx, some m⟩ hs = multiDirNext st2 hs1 := by
  obtain ⟨hlt2, hle2, hdirs2⟩ := openNextDirectory_success_spec _ st2 hop
  dsimp only at hlt2 hle2 hdirs2
  have hlen : st2.directories.length = dirs.length := by rw [hdirs2]
  unfold multiDirNext
  rw [hlen]
  conv_lhs => rw [multiDirNextAux]
  dsimp only
  rw [hnx]
  dsimp only
  rw [hop]
  exact (multiDirNextAux_mono (2 * dirs.length + 2) st2 hs1 (by omega) (by omega)).symm

theorem multiDirNext_none_end (dirs : List (String × List FileRows)) (pat : String)
    (hf hh : Bool) (idx : Nat) (hs : Headers) (st2 : MultiDirectoryCSVStream)
    (hop : openNextDirectory ⟨dirs, pat, hf, hh, idx, none⟩ = (st2, false)) :
    multiDirNext ⟨dirs, pat, hf, hh, idx, none⟩ hs =
      (st2, hs, Except.error PyExc.stopIteration) := by
  unfold multiDirNext
  simp only [multiDirNextAux, hop]

theorem multiDirNext_none_open (dirs : List (String × List FileRows)) (pat : String)
    (hf hh : Bool) (idx : Nat) (hs : Headers) (st2 : MultiDirectoryCSVStream)
    (hop : openNextDirectory ⟨dirs, pat, hf, hh, idx, none⟩ = (st2, true)) :
    multiDirNext ⟨dirs, pat, hf, hh, idx, none⟩ hs = multiDirNext st2 hs := by
  obtain ⟨hlt2, hle2, hdirs2⟩ := openNextDirectory_success_spec _ st2 hop
  dsimp only at hlt2 hle2 hdirs2
  have hlen : st2.directories.length = dirs.length := by rw [hdirs2]
  unfold multiDirNext
  rw [hlen]
  conv_lhs => rw [multiDirNextAux]
  dsimp only
  rw [hop]
  exact (multiDirNextAux_mono (2 * dirs.length + 2) st2 hs (by omega) (by omega)).symm

theorem multiDirRunAux_congr_head (g : Nat) (st st2 : MultiDirectoryCSVStream)
    (hs hs2 : Headers) (h : multiDirNext st hs = multiDirNext st2 hs2) :
    multiDirRunAux (g + 1) st hs = multiDirRunAux (g + 1) st2 hs2 := by
  simp only [multiDirRunAux, h]

theorem multiDirRunAux_compose :
    ∀ (out : List String) (f : Nat) (m m' : MultiFileCSVStream) (hs hs' : Headers)
      (h1 : multiFileRunAux f m hs = (out, m', hs', PyExc.stopIteration))
      (h2 : multiFileRunAux (f + 1) m hs = (out, m', hs', PyExc.stopIteration))
      (dirs : List (String × List FileRows)) (pat : String) (hf hh : Bool) (idx : Nat)
      (F : Nat) (hF : out.length + 1 ≤ F),
      multiDirRunAux F ⟨dirs, pat, hf, hh, idx, some m⟩ hs =
        (match openNextDirectory ⟨dirs, pat, hf, hh, idx, some m'⟩ with
         | (st2, false) => (out, st2, hs', PyExc.stopIteration)
         | (st2, true) =>
           (out ++ (multiDirRunAux (F - out.length) st2 hs').1,
            (multiDirRunAux (F - out.length) st2 hs').2)) := by
  intro out
  induction out with
  | nil =>
    intro f m m' hs hs' h1 h2 dirs pat hf hh idx F hF
    have hnx := multiFileRunAux_nil_inv f m hs m' hs' PyExc.stopIteration h2
    obtain ⟨g, rfl⟩ : ∃ g, F = g + 1 := ⟨F - 1, by omega⟩
    rcases hop : openNextDirectory ⟨dirs, pat, hf, hh, idx, some m'⟩ with ⟨st2, b⟩
    cases b with
    | false =>
      have hw := multiDirNext_stop_end dirs pat hf hh idx m m' hs hs' st2 hnx hop
      simp only [multiDirRunAux, hw]
    | true =>
      have hw := multiDirNext_stop_open dirs pat hf hh idx m m' hs hs' st2 hnx hop
      have hcongr := multiDirRunAux_congr_head g _ _ _ _ hw
      rw [hcongr]
      simp
  | cons v out' ih =>
    intro f m m' hs hs' h1 h2 dirs pat hf hh idx F hF
    obtain ⟨g1, m1, hs1, rfl, hnx, hrun1⟩ :=
      multiFileRunAux_cons_inv f m hs v out' m' hs' PyExc.stopIteration h1
    obtain ⟨g2, m1b, hs1b, hg2, hnxb, hrun2⟩ :=
      multiFileRunAux_cons_inv (g1 + 1 + 1) m hs v out' m' hs' PyExc.stopIteration h2
    have hg2' : g2 = g1 + 1 := by omega
    subst hg2'
    rw [hnx] at hnxb
    simp only [Prod.mk.injEq, Except.ok.injEq] at hnxb
    obtain ⟨rfl, rfl, -⟩ := hnxb
    obtain ⟨G, rfl⟩ : ∃ G, F = G + 1 := ⟨F - 1, by omega⟩
    have hw := multiDirNext_yield dirs pat hf hh idx m m1 hs hs1 v hnx
    have hrec := ih g1 m1 m' hs1 hs' hrun1 hrun2 dirs pat hf hh idx G
      (by simp only [List.length_cons] at hF; omega)
    simp only [multiDirRunAux, hw, hrec]
    rcases hop : openNextDirectory ⟨dirs, pat, hf, hh, idx, some m'⟩ with ⟨st2, b⟩
    cases b with
    | false => simp
    | true => simp

/-- C4: constructing a multi-file stream raises the no-matching-files
exception exactly when the glob result is empty, and that failure is fatal
at this level; a multi-directory stream over a run of empty directories,
then `D1`, then another run of empty directories, then `D2`, swallows those
construction errors, skips the empty directories, and yields exactly the
lines of `D1`'s stream followed by the lines of `D2`'s stream, ending in
`StopIteration` with no other error raised to the caller.  A directory's
lines are given by its own multi-file stream run (with the shared formatter
threaded from `D1`'s final headers into `D2`), stated as a stable (fuel-
insensitive) run ending in `StopIteration`. -/
theorem no_matching_files_and_directory_skip :
    (∀ (dname pat : String) (files : List FileRows) (hf hh : Bool),
      (∃ msg, mkMultiFileCSVStream dname pat files hf hh =
        Except.error (PyExc.exception msg)) ↔ files = []) ∧
    (∀ (e1 e2 : List (String × List FileRows)) (d1 d2 : String × List FileRows)
      (pat : String) (hf hh : Bool) (hs0 hs1 hs2 : Headers)
      (out1 out2 : List String) (m1 m2 : MultiFileCSVStream) (f1 f2 : Nat),
      (∀ x ∈ e1, x.2 = []) → (∀ x ∈ e2, x.2 = []) →
      d1.2 ≠ [] → d2.2 ≠ [] →
      multiFileRunAux f1 ⟨d1.1, pat, d1.2, hf, hh, 0, none, false⟩ hs0 =
        (out1, m1, hs1, PyExc.stopIteration) →
      multiFileRunAux (f1 + 1) ⟨d1.1, pat, d1.2, hf, hh, 0, none, false⟩ hs0 =
        (out1, m1, hs1, PyExc.stopIteration) →
      multiFileRunAux f2 ⟨d2.1, pat, d2.2, hf, hh, 0, none, false⟩ hs1 =
        (out2, m2, hs2, PyExc.stopIteration) →
      multiFileRunAux (f2 + 1) ⟨d2.1, pat, d2.2, hf, hh, 0, none, false⟩ hs1 =
        (out2, m2, hs2, PyExc.stopIteration) →
      ∀ F : Nat, out1.length + out2.length + 2 ≤ F →
      ∃ stFin,
        multiDirRunAux F
          (mkMultiDirectoryCSVStream (e1 ++ d1 :: (e2 ++ [d2])) pat hf hh) hs0 =
          (out1 ++ out2, stFin, hs2, PyExc.stopIteration)) := by
  constructor
  · intro dname pat files hf hh
    constructor
    · rintro ⟨msg, hmk⟩
      by_contra hne
      unfold mkMultiFileCSVStream at hmk
      rw [if_neg (by simp [List.isEmpty_iff, hne])] at hmk
      exact Except.noConfusion hmk
    · rintro rfl
      exact ⟨_, rfl⟩
  · intro e1 e2 d1 d2 pat hf hh hs0 hs1 hs2 out1 out2 m1 m2 f1 f2
      he1 he2 hd1 hd2 hrun1 hrun1b hrun2 hrun2b F hF
    obtain ⟨G, rfl⟩ : ∃ G, F = G + 1 := ⟨F - 1, by omega⟩
    have hop1 := openNextDirectory_found (e1 ++ d1 :: (e2 ++ [d2])) pat hf hh 0 none
      e1 d1 (e2 ++ [d2]) (by simp) he1 hd1
    have hw5 := multiDirNext_none_open (e1 ++ d1 :: (e2 ++ [d2])) pat hf hh 0 hs0 _ hop1
    have hcg := multiDirRunAux_congr_head G _ _ hs0 hs0 hw5
    unfold mkMultiDirectoryCSVStream
    rw [hcg]
    have hcomp1 := multiDirRunAux_compose out1 f1 ⟨d1.1, pat, d1.2, hf, hh, 0, none, false⟩
      m1 hs0 hs1 hrun1 hrun1b (e1 ++ d1 :: (e2 ++ [d2])) pat hf hh (0 + e1.length + 1)
      (G + 1) (by omega)
    rw [hcomp1]
    have hdrop2 : (e1 ++ d1 :: (e2 ++ [d2])).drop (0 + e1.length + 1) = e2 ++ d2 :: [] := by
      rw [show e1 ++ d1 :: (e2 ++ [d2]) = (e1 ++ [d1]) ++ (e2 ++ [d2]) by
        rw [List.append_assoc, List.singleton_append]]
      rw [show 0 + e1.length + 1 = (e1 ++ [d1]).length by simp]
      rw [List.drop_left]
    have hop2 := openNextDirectory_found (e1 ++ d1 :: (e2 ++ [d2])) pat hf hh
      (0 + e1.length + 1) (some m1) e2 d2 [] hdrop2 he2 hd2
    rw [hop2]
    dsimp only
    have hcomp2 := multiDirRunAux_compose out2 f2 ⟨d2.1, pat, d2.2, hf, hh, 0, none, false⟩
      m2 hs1 hs2 hrun2 hrun2b (e1 ++ d1 :: (e2 ++ [d2])) pat hf hh
      (0 + e1.length + 1 + e2.length + 1) (G + 1 - out1.length)
      (by omega)
    rw [hcomp2]
    have hdrop3 : (e1 ++ d1 :: (e2 ++ [d2])).drop (0 + e1.length + 1 + e2.length + 1) =
        ([] : List (String × List FileRows)) := by
      apply List.drop_eq_nil_of_le
      simp
      omega
    have hop3 := openNextDirectory_exhaust (e1 ++ d1 :: (e2 ++ [d2])) pat hf hh
      (0 + e1.length + 1 + e2.length + 1) (some m2) [] hdrop3 (by simp)
    rw [hop3]
    dsimp only
    exact ⟨_, rfl⟩

theorem no_matching_files_and_directory_skip_witness :
    ((∃ msg, mkMultiFileCSVStream "dx" "pt" [] true true =
        Except.error (PyExc.exception msg)) ↔ ([] : List FileRows) = []) ∧
    (∃ stFin,
      multiDirRunAux 10
        (mkMultiDirectoryCSVStream
          ([("e0", [])] ++ ("d1", [[["a", "b"], ["1", "2"]]]) ::
            ([("e1", [])] ++ [("d2", [[["a", "b"], ["3", "4"]]])])) "pt" true true) none =
        (["1,2"] ++ ["3,4"], stFin, some ["a", "b"], PyExc.stopIteration)) :=
  ⟨no_matching_files_and_directory_skip.1 "dx" "pt" [] true true,
   no_matching_files_and_directory_skip.2 [("e0", [])] [("e1", [])]
     ("d1", [[["a", "b"], ["1", "2"]]]) ("d2", [[["a", "b"], ["3", "4"]]]) "pt" true true
     none (some ["a", "b"]) (some ["a", "b"]) ["1,2"] ["3,4"]
     ⟨"d1", "pt", [[["a", "b"], ["1", "2"]]], true, true, 1,
       some ⟨[["a", "b"], ["1", "2"]], true, true, false, none, true⟩, true⟩
     ⟨"d2", "pt", [[["a", "b"], ["3", "4"]]], true, true, 1,
       some ⟨[["a", "b"], ["3", "4"]], true, true, false, none, true⟩, true⟩
     5 5 (by decide) (by decide) (by decide) (by decide) (by decide) (by decide)
     (by decide) (by decide) 10 (by decide)⟩
